import Mathlib

/-!
A verification development for the presentation layer of the Sly2Decomp
repository (game/opengl.cpp, game/OpenGLRenderer.cpp, game/Display.h,
game/Display.cpp, game/Graphics.cpp, game/Peripherals.h).

The C++ state and operations are shallowly embedded as Lean structures and
pure functions; the cross-thread operations (gl_send_chain, the consume step
of render_game_frame / OpenGLDisplay::render, the wait predicates of gl_vsync
and gl_sync_path) are modelled as state transformers on the fields of the
GraphicsData struct that they touch under the mutexes.
-/

/-- RuntimeExitStatus (opengl.cpp:71-76): the process-wide exit status. -/
inductive RuntimeExitStatus
  | RUNNING
  | RESTART_RUNTIME
  | EXIT
  | RESTART_IN_DEBUG
deriving DecidableEq, Repr

/-- 2 ^ 64, the modulus of the C++ u64 counters. -/
def U64MOD : Nat := 2 ^ 64

/-- The fields of GraphicsData (opengl.cpp:39-68) that the frame-handoff
protocol reads and writes: the u64 frame counters, the single-slot pending
flag, and the dma copier's stored input buffer and offset
(dma_copier.set_input_data stores the pointer and offset; the buffer is
opaque bytes here). -/
structure GraphicsData where
  frame_idx : Nat
  frame_idx_of_input_data : Nat
  has_data_to_render : Bool
  dma_input_data : List Nat
  dma_input_offset : Nat
deriving DecidableEq, Repr

/-- gl_send_chain (opengl.cpp:782-810), the producer-side publish: under the
dma mutex, if has_data_to_render is already set it logs an error and returns
with no effect; otherwise it stores the input data and offset in the dma
copier and sets has_data_to_render. -/
def gl_send_chain (s : GraphicsData) (data : List Nat) (offset : Nat) : GraphicsData :=
  if s.has_data_to_render then
    s
  else
    { s with
      dma_input_data := data
      dma_input_offset := offset
      has_data_to_render := true }

/-- The end of render_game_frame (opengl.cpp:468-477): under the dma mutex,
mark the chain as rendered by clearing has_data_to_render (and notify
sync_cv). -/
def mark_chain_rendered (s : GraphicsData) : GraphicsData :=
  { s with has_data_to_render := false }

/-- The vsync block of OpenGLDisplay::render (opengl.cpp:724-728): under the
sync mutex, increment the u64 frame_idx (and notify sync_cv). -/
def advance_frame_idx (s : GraphicsData) : GraphicsData :=
  { s with frame_idx := (s.frame_idx + 1) % U64MOD }

/-- One consume step as seen by the producer: the flag clear at the end of
render_game_frame followed by the frame-index advance later in the same
OpenGLDisplay::render iteration. -/
def markConsumed (s : GraphicsData) : GraphicsData :=
  advance_frame_idx (mark_chain_rendered s)

/-- A run of publish calls each followed by a consume step: for each
(data, offset) pair, gl_send_chain then markConsumed. -/
def runPublishConsume (s : GraphicsData) (bufs : List (List Nat × Nat)) : GraphicsData :=
  bufs.foldl (fun t b => markConsumed (gl_send_chain t b.1 b.2)) s

/-- The wait predicate of gl_vsync (opengl.cpp:759-761): exit status is not
RUNNING, or frame_idx has advanced past the captured baseline. -/
def gl_vsync_wait_pred (exitStatus : RuntimeExitStatus) (s : GraphicsData)
    (init_frame : Nat) : Bool :=
  decide (exitStatus ≠ RuntimeExitStatus.RUNNING) || decide (s.frame_idx > init_frame)

/-- The wait predicate of gl_sync_path (opengl.cpp:774): the lambda captures
no exit status at all; it only checks that has_data_to_render has been
cleared. The exitStatus argument records the ambient MasterExit value visible
to the thread; the source predicate does not consult it. -/
def gl_sync_path_wait_pred (_exitStatus : RuntimeExitStatus) (s : GraphicsData) : Bool :=
  !s.has_data_to_render

/-- Helper: gl_send_chain never changes frame_idx. -/
theorem gl_send_chain_frame_idx (s : GraphicsData) (d : List Nat) (o : Nat) :
    (gl_send_chain s d o).frame_idx = s.frame_idx := by
  unfold gl_send_chain
  split <;> rfl

/-- Helper: the frame counter of a publish/consume run, modulo 2 ^ 64. -/
theorem runPublishConsume_frame_idx (bufs : List (List Nat × Nat)) :
    ∀ s : GraphicsData, s.frame_idx < U64MOD →
      (runPublishConsume s bufs).frame_idx = (s.frame_idx + bufs.length) % U64MOD := by
  induction bufs with
  | nil =>
    intro s hs
    simpa [runPublishConsume] using (Nat.mod_eq_of_lt hs).symm
  | cons b bs ih =>
    intro s hs
    have hlt : (s.frame_idx + 1) % U64MOD < U64MOD :=
      Nat.mod_lt _ (by decide)
    have hstep : (runPublishConsume s (b :: bs)) =
        runPublishConsume (markConsumed (gl_send_chain s b.1 b.2)) bs := by
      simp [runPublishConsume]
    rw [hstep, ih _ (by
      simpa [markConsumed, advance_frame_idx, mark_chain_rendered,
        gl_send_chain_frame_idx] using hlt)]
    simp [markConsumed, advance_frame_idx, mark_chain_rendered,
      gl_send_chain_frame_idx, Nat.mod_add_mod]
    ring_nf

/-- Claim C1: a call to gl_send_chain made while has_data_to_render is
already true returns with no effect: the slot's buffer, offset, both frame
indices, and the flag itself are all unchanged. -/
theorem gl_send_chain_noop_when_pending (s : GraphicsData) (data : List Nat)
    (offset : Nat) (h : s.has_data_to_render = true) :
    gl_send_chain s data offset = s := by
  unfold gl_send_chain
  simp [h]

/-- Witness for C1 at a concrete pending state. -/
theorem gl_send_chain_noop_when_pending_witness :
    (GraphicsData.mk 5 4 true [1, 2] 7).has_data_to_render = true ∧
      gl_send_chain (GraphicsData.mk 5 4 true [1, 2] 7) [9, 9] 3 =
        GraphicsData.mk 5 4 true [1, 2] 7 :=
  ⟨rfl, gl_send_chain_noop_when_pending (GraphicsData.mk 5 4 true [1, 2] 7) [9, 9] 3 rfl⟩

/-- Claim C2: the consume step clears has_data_to_render and advances the
shared frame_idx by exactly one (no u64 wrap), and a run of N publish calls
each separated by a consume step increases frame_idx by exactly N, never
more. -/
theorem markConsumed_single_slot_advance (s : GraphicsData)
    (bufs : List (List Nat × Nat))
    (h1 : s.frame_idx + 1 < U64MOD)
    (hN : s.frame_idx + bufs.length < U64MOD) :
    (markConsumed s).has_data_to_render = false ∧
      (markConsumed s).frame_idx = s.frame_idx + 1 ∧
      (runPublishConsume s bufs).frame_idx = s.frame_idx + bufs.length := by
  refine ⟨rfl, ?_, ?_⟩
  · simp [markConsumed, advance_frame_idx, mark_chain_rendered, Nat.mod_eq_of_lt h1]
  · rw [runPublishConsume_frame_idx bufs s (by omega)]
    exact Nat.mod_eq_of_lt hN

/-- Witness for C2: a two-frame run from the initial counters. -/
theorem markConsumed_single_slot_advance_witness :
    (GraphicsData.mk 0 0 false [] 0).frame_idx + 1 < U64MOD ∧
      (GraphicsData.mk 0 0 false [] 0).frame_idx + 2 < U64MOD ∧
      (runPublishConsume (GraphicsData.mk 0 0 false [] 0)
        [([1], 4), ([2], 5)]).frame_idx = 2 := by
  refine ⟨by decide, by decide, ?_⟩
  have h := markConsumed_single_slot_advance (GraphicsData.mk 0 0 false [] 0)
    [([1], 4), ([2], 5)] (by decide) (by decide)
  simpa using h.2.2

/-- Counterexample for C6: with exit status EXIT and a chain still pending,
gl_sync_path's wait predicate is false, so the wait does not treat the
non-Running exit status as satisfied. -/
theorem gl_sync_path_pred_ignores_exit_cex :
    RuntimeExitStatus.EXIT ≠ RuntimeExitStatus.RUNNING ∧
      gl_sync_path_wait_pred RuntimeExitStatus.EXIT
        (GraphicsData.mk 0 0 true [] 0) = false := by
  constructor
  · decide
  · rfl

/-- Claim C6 as amended: gl_vsync's wait predicate is true whenever the exit
status is a non-Running value, but gl_sync_path's wait predicate does not
consult the exit status at all: it equals the negation of
has_data_to_render, for every exit status. -/
theorem wait_predicates_exit_amended (e : RuntimeExitStatus) (s : GraphicsData)
    (init_frame : Nat) (he : e ≠ RuntimeExitStatus.RUNNING) :
    gl_vsync_wait_pred e s init_frame = true ∧
      gl_sync_path_wait_pred e s = !s.has_data_to_render := by
  constructor
  · simp [gl_vsync_wait_pred, he]
  · rfl

/-- Witness for C6's amended claim at exit status EXIT. -/
theorem wait_predicates_exit_amended_witness :
    RuntimeExitStatus.EXIT ≠ RuntimeExitStatus.RUNNING ∧
      gl_vsync_wait_pred RuntimeExitStatus.EXIT (GraphicsData.mk 0 0 true [] 0) 0 = true ∧
      gl_sync_path_wait_pred RuntimeExitStatus.EXIT (GraphicsData.mk 0 0 true [] 0) =
        !(GraphicsData.mk 0 0 true [] 0).has_data_to_render := by
  refine ⟨by decide, ?_⟩
  have h := wait_predicates_exit_amended RuntimeExitStatus.EXIT
    (GraphicsData.mk 0 0 true [] 0) 0 (by decide)
  exact h

/-!
Target resolver (OpenGLRenderer::setup_frame, OpenGLRenderer.cpp:182-272,
with make_fbo at OpenGLRenderer.cpp:92-176). The header OpenGLRenderer.h,
which declares the Fbo struct with Fbo::matches and Fbo::clear and the
FboState with its render_fbo pointer, is not part of the sources here; those
pieces are modelled from the spec as noted on each definition. GL object
handles are abstracted to constants: the claims only concern which targets
exist, their (width, height, sampleCount) tuples, and allocation counts.
-/

/-- Modelled from the spec: the Fbo record of the missing OpenGLRenderer.h
(a RenderTarget: width, height, sample count, window flag, validity, opaque
color/depth handles). Field names follow the uses in OpenGLRenderer.cpp. -/
structure Fbo where
  valid : Bool
  is_window : Bool
  multisampled : Bool
  multisample_count : Int
  fbo_id : Int
  tex_id : Int
  zbuf_stencil_id : Int
  width : Int
  height : Int
deriving DecidableEq, Repr

/-- Modelled from the spec: Fbo::matches of the missing OpenGLRenderer.h
compares the cached (width, height, sampleCount) tuple against the desired
one ("the cached (width, height, sampleCount) tuple no longer equals
(desiredWidth, desiredHeight, desiredSampleCount)"). -/
def Fbo.fmatches (f : Fbo) (w h msaa : Int) : Bool :=
  f.width == w && f.height == h && f.multisample_count == msaa

/-- Modelled from the spec: the result of Fbo::clear of the missing
OpenGLRenderer.h — the target is destroyed and replaced, never mutated in
place; a cleared slot holds no valid target. -/
def Fbo.cleared : Fbo :=
  { valid := false
    is_window := false
    multisampled := false
    multisample_count := 0
    fbo_id := -1
    tex_id := -1
    zbuf_stencil_id := -1
    width := 0
    height := 0 }

/-- Which Fbo the render_fbo pointer of FboState selects. -/
inductive RenderFboTarget
  | window
  | renderBuffer
deriving DecidableEq, Repr

/-- Modelled from the spec: the FboState of the missing OpenGLRenderer.h —
the window surface, the offscreen render buffer, the offscreen resolve
buffer, and the render_fbo pointer (none models the initial nullptr). -/
structure FboState where
  window : Fbo
  render_buffer : Fbo
  resolve_buffer : Fbo
  render_fbo : Option RenderFboTarget
deriving DecidableEq, Repr

/-- The initial FboState at renderer construction: no valid targets and a
null render_fbo pointer. -/
def FboState.init : FboState :=
  { window := Fbo.cleared
    render_buffer := Fbo.cleared
    resolve_buffer := Fbo.cleared
    render_fbo := none }

/-- The fields of RenderOptions consumed by setup_frame (ints in C++;
overflow plays no role in these claims). -/
structure RenderOptions where
  game_res_w : Int
  game_res_h : Int
  window_framebuffer_width : Int
  window_framebuffer_height : Int
  msaa_samples : Int
deriving DecidableEq, Repr

/-- make_fbo (OpenGLRenderer.cpp:92-176): allocates one offscreen target of
the given size and sample count, multisampled when msaa > 1, with a
depth/stencil renderbuffer only when requested. GL handles are abstracted to
the constant 1 (and -1 for an absent depth/stencil attachment). -/
def make_fbo (w h msaa : Int) (make_zbuf_and_stencil : Bool) : Fbo :=
  { valid := true
    is_window := false
    multisampled := decide (msaa > 1)
    multisample_count := msaa
    fbo_id := 1
    tex_id := 1
    zbuf_stencil_id := if make_zbuf_and_stencil then 1 else -1
    width := w
    height := h }

/-- The window-surface update at the top of setup_frame
(OpenGLRenderer.cpp:184-193): glfw owns the window framebuffer, so only its
recorded size and fixed single-sample metadata are refreshed. -/
def updateWindowFb (f : Fbo) (o : RenderOptions) : Fbo :=
  { f with
    valid := true
    is_window := true
    fbo_id := 0
    width := o.window_framebuffer_width
    height := o.window_framebuffer_height
    multisample_count := 1
    multisampled := false }

/-- window_resized (OpenGLRenderer.cpp:185-186), computed against the cached
window surface before it is refreshed. -/
def windowResized (s : FboState) (o : RenderOptions) : Bool :=
  s.window.width != o.window_framebuffer_width ||
    s.window.height != o.window_framebuffer_height

/-- The Fbo the render_fbo pointer dereferences to (the source reads
m_fbo_state.render_fbo->matches(...); the pointer is only dereferenced when
non-null, so the none case is arbitrary here and guarded at every use). -/
def derefRenderFbo (s : FboState) : Fbo :=
  match s.render_fbo with
  | some RenderFboTarget.renderBuffer => s.render_buffer
  | _ => s.window

/-- The result of one setup_frame call: the new FboState plus the number of
make_fbo allocations the call performed. -/
structure SetupResult where
  state : FboState
  allocs : Nat
deriving DecidableEq, Repr

/-- OpenGLRenderer::setup_frame (OpenGLRenderer.cpp:182-234), the target
resolution part: refresh the window surface record, then, if the render FBO
is missing, the window resized, or the cached tuple no longer matches the
desired (game_res_w, game_res_h, msaa_samples), re-resolve — clear both
offscreen buffers, select the window surface directly when it matches the
desired tuple, and otherwise allocate a render buffer (plus a single-sample
resolve buffer when the window's sample count differs from msaa_samples).
The GL viewport/clear calls at OpenGLRenderer.cpp:236-272 touch no FboState
fields and are omitted. -/
def setup_frame (s : FboState) (o : RenderOptions) : SetupResult :=
  let resized := windowResized s o
  let w := updateWindowFb s.window o
  let s1 : FboState := { s with window := w }
  let rebuild : Bool :=
    s1.render_fbo.isNone || resized ||
      !((derefRenderFbo s1).fmatches o.game_res_w o.game_res_h o.msaa_samples)
  if rebuild then
    let s2 : FboState :=
      { s1 with render_buffer := Fbo.cleared, resolve_buffer := Fbo.cleared }
    if w.fmatches o.game_res_w o.game_res_h o.msaa_samples then
      { state := { s2 with render_fbo := some RenderFboTarget.window }, allocs := 0 }
    else
      let rb := make_fbo o.game_res_w o.game_res_h o.msaa_samples true
      let s3 : FboState :=
        { s2 with render_buffer := rb, render_fbo := some RenderFboTarget.renderBuffer }
      if !(w.multisample_count == o.msaa_samples) then
        { state := { s3 with resolve_buffer := make_fbo o.game_res_w o.game_res_h 1 false }
          allocs := 2 }
      else
        { state := s3, allocs := 1 }
  else
    { state := s1, allocs := 0 }

/-- The state invariant setup_frame maintains: when the render buffer is the
selected target, the window surface does not itself satisfy the render
buffer's (width, height, 1) tuple; when the window is the selected target,
no offscreen targets exist. -/
def FboInv (s : FboState) : Prop :=
  (s.render_fbo = some RenderFboTarget.renderBuffer →
    ¬(s.window.width = s.render_buffer.width ∧
      s.window.height = s.render_buffer.height ∧
      s.render_buffer.multisample_count = 1)) ∧
  (s.render_fbo = some RenderFboTarget.window →
    s.render_buffer.valid = false ∧ s.resolve_buffer.valid = false)

instance (s : FboState) : Decidable (FboInv s) := by
  unfold FboInv
  infer_instance

/-- Helper: the initial FboState satisfies the invariant. -/
theorem FboInv_init : FboInv FboState.init := by decide

/-- Helper: Fbo.fmatches unfolded to propositional tuple equality. -/
theorem Fbo.fmatches_eq_true (f : Fbo) (w h m : Int) :
    f.fmatches w h m = true ↔
      (f.width = w ∧ f.height = h ∧ f.multisample_count = m) := by
  simp [Fbo.fmatches, and_assoc]

/-- Helper: windowResized unfolded to propositional inequality. -/
theorem windowResized_eq_false (s : FboState) (o : RenderOptions) :
    windowResized s o = false ↔
      (s.window.width = o.window_framebuffer_width ∧
        s.window.height = o.window_framebuffer_height) := by
  simp [windowResized]

/-- Helper: setup_frame preserves the invariant. -/
theorem setup_frame_preserves_FboInv (s : FboState) (o : RenderOptions)
    (h : FboInv s) : FboInv (setup_frame s o).state := by
  unfold setup_frame
  simp only []
  split
  · split
    · -- direct path: window selected, both buffers cleared
      exact ⟨by simp, fun _ => ⟨rfl, rfl⟩⟩
    · -- offscreen path
      rename_i hre hnm
      rw [Fbo.fmatches_eq_true] at hnm
      simp only [updateWindowFb] at hnm
      split
      · refine ⟨fun _ => ?_, by simp⟩
        simp only [updateWindowFb, make_fbo]
        omega
      · rename_i hms
        simp only [updateWindowFb, beq_iff_eq, Bool.not_eq_true',
          Bool.not_eq_false] at hms
        refine ⟨fun _ => ?_, by simp⟩
        simp only [updateWindowFb, make_fbo]
        omega
  · -- no rebuild: state unchanged apart from the refreshed window record
    rename_i hnr
    simp only [Bool.or_eq_true, not_or, Bool.not_eq_true,
      Option.isNone_eq_false_iff, Bool.not_eq_false] at hnr
    obtain ⟨⟨hsome, hresz⟩, hmat⟩ := hnr
    rw [windowResized_eq_false] at hresz
    constructor
    · intro hrb
      simp only [] at hrb
      rw [hrb] at hmat
      simp only [derefRenderFbo, Fbo.fmatches_eq_true] at hmat
      have hinv := h.1 hrb
      simp only [updateWindowFb]
      omega
    · intro hrw
      simp only [] at hrw
      exact h.2 hrw

/-- A RenderOptions tuple for witnesses: desired equals the 640x480
single-sampled window surface. -/
def optsDirect : RenderOptions :=
  { game_res_w := 640
    game_res_h := 480
    window_framebuffer_width := 640
    window_framebuffer_height := 480
    msaa_samples := 1 }

/-- A RenderOptions tuple for witnesses: 1024x768 at 4x MSAA against a
640x480 single-sampled window surface. -/
def optsMsaa : RenderOptions :=
  { game_res_w := 1024
    game_res_h := 768
    window_framebuffer_width := 640
    window_framebuffer_height := 480
    msaa_samples := 4 }

/-- Claim C3: a setup_frame call whose desired
(game_res_w, game_res_h, msaa_samples) equals the window framebuffer's
(width, height, 1), from any state satisfying the resolver's invariant,
selects the window surface itself as the render target, performs no
offscreen allocation, and leaves no offscreen target in existence. -/
theorem setup_frame_direct_path (s : FboState) (o : RenderOptions)
    (hinv : FboInv s)
    (hw : o.game_res_w = o.window_framebuffer_width)
    (hh : o.game_res_h = o.window_framebuffer_height)
    (hm : o.msaa_samples = 1) :
    (setup_frame s o).state.render_fbo = some RenderFboTarget.window ∧
      (setup_frame s o).allocs = 0 ∧
      (setup_frame s o).state.render_buffer.valid = false ∧
      (setup_frame s o).state.resolve_buffer.valid = false := by
  unfold setup_frame
  simp only []
  split
  · -- re-resolve: the window surface matches the desired tuple
    have hdm : (updateWindowFb s.window o).fmatches o.game_res_w o.game_res_h
        o.msaa_samples = true := by
      rw [Fbo.fmatches_eq_true]
      simp only [updateWindowFb]
      omega
    rw [if_pos hdm]
    exact ⟨rfl, rfl, rfl, rfl⟩
  · -- no re-resolve: the invariant rules out a matching offscreen target
    rename_i hnr
    simp only [Bool.or_eq_true, not_or, Bool.not_eq_true,
      Option.isNone_eq_false_iff, Bool.not_eq_false] at hnr
    obtain ⟨⟨hsome, hresz⟩, hmat⟩ := hnr
    rw [windowResized_eq_false] at hresz
    obtain ⟨t, ht⟩ := Option.isSome_iff_exists.mp hsome
    cases t with
    | window =>
      refine ⟨by simp [ht], rfl, ?_, ?_⟩
      · exact (hinv.2 ht).1
      · exact (hinv.2 ht).2
    | renderBuffer =>
      exfalso
      simp only [Bool.not_eq_false'] at hmat
      simp only [derefRenderFbo, ht, Fbo.fmatches_eq_true] at hmat
      have hinv1 := hinv.1 ht
      omega

/-- Witness for C3 from the initial resolver state. -/
theorem setup_frame_direct_path_witness :
    FboInv FboState.init ∧
      optsDirect.game_res_w = optsDirect.window_framebuffer_width ∧
      optsDirect.game_res_h = optsDirect.window_framebuffer_height ∧
      optsDirect.msaa_samples = 1 ∧
      ((setup_frame FboState.init optsDirect).state.render_fbo =
          some RenderFboTarget.window ∧
        (setup_frame FboState.init optsDirect).allocs = 0 ∧
        (setup_frame FboState.init optsDirect).state.render_buffer.valid = false ∧
        (setup_frame FboState.init optsDirect).state.resolve_buffer.valid = false) :=
  ⟨by decide, rfl, rfl, rfl,
    setup_frame_direct_path FboState.init optsDirect (by decide) rfl rfl rfl⟩

/-- Claim C4: when a setup_frame call allocates (an offscreen render target
is created by the re-resolve), then: if the desired sample count differs
from the window surface's fixed sample count of 1, exactly two offscreen
targets exist afterwards — the render buffer at
(game_res_w, game_res_h, msaa_samples) with a depth/stencil attachment,
multisampled when msaa_samples > 1, plus a single-sample resolve buffer at
the desired resolution; if the desired sample count equals 1, only the
render buffer exists and no resolve buffer is allocated. -/
theorem setup_frame_resolve_buffer_necessity (s : FboState) (o : RenderOptions)
    (halloc : 1 ≤ (setup_frame s o).allocs) :
    (o.msaa_samples ≠ 1 →
      (setup_frame s o).allocs = 2 ∧
      (setup_frame s o).state.render_fbo = some RenderFboTarget.renderBuffer ∧
      (setup_frame s o).state.render_buffer.valid = true ∧
      (setup_frame s o).state.render_buffer.width = o.game_res_w ∧
      (setup_frame s o).state.render_buffer.height = o.game_res_h ∧
      (setup_frame s o).state.render_buffer.multisample_count = o.msaa_samples ∧
      (setup_frame s o).state.render_buffer.multisampled = decide (o.msaa_samples > 1) ∧
      (setup_frame s o).state.render_buffer.zbuf_stencil_id ≠ -1 ∧
      (setup_frame s o).state.resolve_buffer.valid = true ∧
      (setup_frame s o).state.resolve_buffer.width = o.game_res_w ∧
      (setup_frame s o).state.resolve_buffer.height = o.game_res_h ∧
      (setup_frame s o).state.resolve_buffer.multisample_count = 1) ∧
    (o.msaa_samples = 1 →
      (setup_frame s o).allocs = 1 ∧
      (setup_frame s o).state.render_fbo = some RenderFboTarget.renderBuffer ∧
      (setup_frame s o).state.render_buffer.valid = true ∧
      (setup_frame s o).state.resolve_buffer.valid = false) := by
  revert halloc
  unfold setup_frame
  simp only []
  split
  · split
    · intro halloc
      exact absurd halloc (Nat.not_succ_le_zero 0)
    · split
      · rename_i hms
        simp only [updateWindowFb, Bool.not_eq_true', beq_eq_false_iff_ne,
          ne_eq] at hms
        intro _
        constructor
        · intro _
          refine ⟨rfl, rfl, rfl, rfl, rfl, rfl, rfl, ?_, rfl, rfl, rfl, rfl⟩
          simp [make_fbo]
        · intro h1
          exact absurd h1.symm hms
      · rename_i hms
        simp only [updateWindowFb, Bool.not_eq_true, Bool.not_eq_false',
          beq_iff_eq] at hms
        intro _
        constructor
        · intro h1
          exact absurd hms.symm h1
        · intro _
          exact ⟨rfl, rfl, rfl, rfl⟩
  · intro halloc
    exact absurd halloc (Nat.not_succ_le_zero 0)

/-- Witness for C4 at the 4x-MSAA configuration from the initial state. -/
theorem setup_frame_resolve_buffer_necessity_witness :
    1 ≤ (setup_frame FboState.init optsMsaa).allocs ∧
      optsMsaa.msaa_samples ≠ 1 ∧
      (setup_frame FboState.init optsMsaa).allocs = 2 ∧
      (setup_frame FboState.init optsMsaa).state.resolve_buffer.valid = true := by
  have h := setup_frame_resolve_buffer_necessity FboState.init optsMsaa (by decide)
  have h4 := h.1 (by decide)
  exact ⟨by decide, by decide, h4.1, h4.2.2.2.2.2.2.2.2.1⟩

/-- Helper: after any setup_frame call, the window record is the refreshed
one, the render_fbo pointer is set, and the selected target matches the
desired tuple. -/
theorem setup_frame_post (s : FboState) (o : RenderOptions) :
    (setup_frame s o).state.window = updateWindowFb s.window o ∧
      (setup_frame s o).state.render_fbo.isNone = false ∧
      (derefRenderFbo (setup_frame s o).state).fmatches o.game_res_w o.game_res_h
        o.msaa_samples = true := by
  unfold setup_frame
  simp only []
  split
  · split
    · rename_i hdm
      exact ⟨rfl, rfl, by simpa [derefRenderFbo] using hdm⟩
    · split
      · refine ⟨rfl, rfl, ?_⟩
        simp [derefRenderFbo, Fbo.fmatches, make_fbo]
      · refine ⟨rfl, rfl, ?_⟩
        simp [derefRenderFbo, Fbo.fmatches, make_fbo]
  · rename_i hnr
    simp only [Bool.or_eq_true, not_or, Bool.not_eq_true,
      Option.isNone_eq_false_iff, Bool.not_eq_false] at hnr
    obtain ⟨⟨hsome, hresz⟩, hmat⟩ := hnr
    rw [windowResized_eq_false] at hresz
    refine ⟨?_, by simpa using hsome, by simpa using hmat⟩
    simp only [updateWindowFb]

/-- Helper: refreshing the window record twice with the same options is the
same as doing it once. -/
theorem updateWindowFb_idem (f : Fbo) (o : RenderOptions) :
    updateWindowFb (updateWindowFb f o) o = updateWindowFb f o := by
  cases f
  rfl

/-- Helper: a state whose window record is already refreshed, whose
render_fbo pointer is set, and whose selected target matches the desired
tuple passes through setup_frame unchanged with zero allocations. -/
theorem setup_frame_stable (s : FboState) (o : RenderOptions)
    (hwin : s.window = updateWindowFb s.window o)
    (hfbo : s.render_fbo.isNone = false)
    (hmat : (derefRenderFbo s).fmatches o.game_res_w o.game_res_h
      o.msaa_samples = true) :
    setup_frame s o = ⟨s, 0⟩ := by
  have hresz : windowResized s o = false := by
    rw [windowResized_eq_false]
    constructor
    · conv_lhs => rw [hwin]
      rfl
    · conv_lhs => rw [hwin]
      rfl
  have hcond : ¬((s.render_fbo.isNone || windowResized s o ||
      !((derefRenderFbo s).fmatches o.game_res_w o.game_res_h
        o.msaa_samples)) = true) := by
    rw [hfbo, hresz, hmat]
    decide
  have hs1 : ({ s with window := updateWindowFb s.window o } : FboState) = s := by
    conv_lhs => rw [← hwin]
  unfold setup_frame
  simp only []
  rw [hs1]
  rw [if_neg hcond]

/-- Claim C5: setup_frame is idempotent — a second call with identical
inputs performs zero allocations and leaves the whole resolver state,
including the selected render-target identity, unchanged. -/
theorem setup_frame_idempotent (s : FboState) (o : RenderOptions) :
    (setup_frame (setup_frame s o).state o).allocs = 0 ∧
      (setup_frame (setup_frame s o).state o).state = (setup_frame s o).state := by
  obtain ⟨hwin, hfbo, hmat⟩ := setup_frame_post s o
  have hwin2 : (setup_frame s o).state.window =
      updateWindowFb (setup_frame s o).state.window o := by
    rw [hwin, updateWindowFb_idem]
  have h := setup_frame_stable (setup_frame s o).state o hwin2 hfbo hmat
  rw [h]
  exact ⟨rfl, rfl⟩

/-!
Display state machine (Display.h:20-85, opengl.cpp:369-385, 500-561,
629-645, 730-737). The GLFW environment is modelled as a list of monitors,
each carrying its position, work area and current video mode; the window's
actual geometry (the effect of glfwSetWindowMonitor) is carried as a field
of the display state. C++ int division truncates toward zero, which is
Int.tdiv.
-/

/-- GraphicsDisplayMode (Graphics.h:22). -/
inductive GraphicsDisplayMode
  | Windowed
  | Fullscreen
  | Borderless
deriving DecidableEq, Repr

/-- A GLFWvidmode's observable fields (width, height, refreshRate). -/
structure VideoMode where
  width : Int
  height : Int
  refreshRate : Int
deriving DecidableEq, Repr

/-- A window geometry: position and size. -/
structure Geometry where
  x : Int
  y : Int
  width : Int
  height : Int
deriving DecidableEq, Repr

/-- One monitor as seen through GLFW: its position (glfwGetMonitorPos), its
work area (glfwGetMonitorWorkarea) and its current video mode
(glfwGetVideoMode). -/
structure MonitorInfo where
  posx : Int
  posy : Int
  workarea : Geometry
  vmode : VideoMode
deriving DecidableEq, Repr

/-- The monitor list of g_glfw_state (opengl.cpp:88-92). -/
structure Monitors where
  monitors : List MonitorInfo
deriving DecidableEq, Repr

/-- A fallback monitor record (the C++ primary-monitor fallback assumes at
least one monitor exists; an empty list maps to this default here). -/
def defaultMonitor : MonitorInfo :=
  { posx := 0, posy := 0, workarea := ⟨0, 0, 0, 0⟩, vmode := ⟨0, 0, 0⟩ }

/-- OpenGLDisplay::get_monitor (opengl.cpp:608-615): an out-of-bounds index
defaults to the primary monitor (index 0). -/
def get_monitor (env : Monitors) (index : Int) : MonitorInfo :=
  if 0 ≤ index ∧ index < (env.monitors.length : Int) then
    env.monitors.getD index.toNat defaultMonitor
  else
    env.monitors.getD 0 defaultMonitor

/-- The mode and geometry fields of GraphicsDisplay (Display.h:23-39) and
OpenGLDisplay (opengl.h:53-56), plus the window's actual geometry. The C++
m_fullscreen_mode starts as the invalid value (GraphicsDisplayMode)-1,
modelled as none; the same applies to m_last_fullscreen_mode after
update_last_fullscreen_mode copies an invalid current mode. -/
structure DisplayState where
  fullscreen_target_mode : GraphicsDisplayMode
  fullscreen_mode : Option GraphicsDisplayMode
  last_fullscreen_mode : Option GraphicsDisplayMode
  fullscreen_screen : Int
  fullscreen_target_screen : Int
  last_windowed_xpos : Int
  last_windowed_ypos : Int
  last_windowed_width : Int
  last_windowed_height : Int
  last_video_mode : VideoMode
  minimized : Bool
  window_geometry : Geometry
deriving DecidableEq, Repr

/-- GraphicsDisplay::fullscreen_pending (Display.h:57-60): the current mode
differs from the target mode, or the current screen differs from the target
screen. -/
def GraphicsDisplay.fullscreen_pending_base (s : DisplayState) : Bool :=
  decide (s.fullscreen_mode ≠ some s.fullscreen_target_mode) ||
    decide (s.fullscreen_screen ≠ s.fullscreen_target_screen)

/-- OpenGLDisplay::fullscreen_pending (opengl.cpp:629-636): the base pending
check, or the current video mode of the monitor at fullscreen_screen differs
componentwise from the one recorded at the last flush. -/
def OpenGLDisplay.fullscreen_pending (env : Monitors) (s : DisplayState) : Bool :=
  let vmode := (get_monitor env s.fullscreen_screen).vmode
  GraphicsDisplay.fullscreen_pending_base s ||
    decide (vmode.width ≠ s.last_video_mode.width ∨
      vmode.height ≠ s.last_video_mode.height ∨
      vmode.refreshRate ≠ s.last_video_mode.refreshRate)

/-- The pending() predicate exactly as claim C7 states it: true when
currentMode differs from targetMode, or when the active monitor's observed
video mode has changed since the mode was last flushed; nothing else. -/
def fullscreen_pending_claimC7 (env : Monitors) (s : DisplayState) : Bool :=
  decide (s.fullscreen_mode ≠ some s.fullscreen_target_mode) ||
    decide ((get_monitor env s.fullscreen_screen).vmode ≠ s.last_video_mode)

/-- GraphicsDisplay::set_fullscreen (Display.h:71-74): records the request
in the target mode and target screen. -/
def set_fullscreen (s : DisplayState) (mode : GraphicsDisplayMode)
    (screen : Int) : DisplayState :=
  { s with fullscreen_target_mode := mode, fullscreen_target_screen := screen }

/-- OpenGLDisplay::update_fullscreen (opengl.cpp:500-561): computes and
applies the destination geometry. Windowed: reuse the remembered geometry if
the last-frame mode was Windowed, otherwise keep the remembered size but
recenter on the work area of the monitor previously fullscreened (then
re-record the remembered geometry, opengl.cpp:532-536). Fullscreen: the
monitor's video-mode size at the monitor origin. Borderless: the video-mode
size at the monitor position (the Windows height+1 hack is not modelled). -/
def update_fullscreen (env : Monitors) (s : DisplayState)
    (mode : GraphicsDisplayMode) (screen : Int) : DisplayState :=
  let monitor := get_monitor env screen
  match mode with
  | GraphicsDisplayMode.Windowed =>
    let g : Geometry :=
      if s.last_fullscreen_mode = some GraphicsDisplayMode.Windowed then
        ⟨s.last_windowed_xpos, s.last_windowed_ypos,
          s.last_windowed_width, s.last_windowed_height⟩
      else
        ⟨monitor.workarea.x + Int.tdiv monitor.workarea.width 2 -
            Int.tdiv s.last_windowed_width 2,
          monitor.workarea.y + Int.tdiv monitor.workarea.height 2 -
            Int.tdiv s.last_windowed_height 2,
          s.last_windowed_width, s.last_windowed_height⟩
    { s with
      window_geometry := g
      last_windowed_xpos := g.x
      last_windowed_ypos := g.y
      last_windowed_width := g.width
      last_windowed_height := g.height }
  | GraphicsDisplayMode.Fullscreen =>
    { s with window_geometry := ⟨0, 0, monitor.vmode.width, monitor.vmode.height⟩ }
  | GraphicsDisplayMode.Borderless =>
    { s with window_geometry :=
        ⟨monitor.posx, monitor.posy, monitor.vmode.width, monitor.vmode.height⟩ }

/-- GraphicsDisplay::fullscreen_flush (Display.h:61-66): apply the target
mode and screen via update_fullscreen, then commit them as current. -/
def GraphicsDisplay.fullscreen_flush (env : Monitors) (s : DisplayState) : DisplayState :=
  let s1 := update_fullscreen env s s.fullscreen_target_mode s.fullscreen_target_screen
  { s1 with
    fullscreen_mode := some s.fullscreen_target_mode
    fullscreen_screen := s.fullscreen_target_screen }

/-- OpenGLDisplay::fullscreen_flush (opengl.cpp:638-645): the base flush,
then record the current video mode of the now-current screen's monitor. -/
def OpenGLDisplay.fullscreen_flush (env : Monitors) (s : DisplayState) : DisplayState :=
  let s1 := GraphicsDisplay.fullscreen_flush env s
  { s1 with last_video_mode := (get_monitor env s1.fullscreen_screen).vmode }

/-- The display-mode portion at the end of one OpenGLDisplay::render
iteration (opengl.cpp:730-737): update_last_fullscreen_mode, then flush when
a change is pending and the window is not minimized. -/
def display_mode_step (env : Monitors) (s : DisplayState) : DisplayState :=
  let s1 := { s with last_fullscreen_mode := s.fullscreen_mode }
  if OpenGLDisplay.fullscreen_pending env s1 = true ∧ s1.minimized = false then
    OpenGLDisplay.fullscreen_flush env s1
  else
    s1

/-- A concrete one-monitor environment: a 1920x1080 at 60Hz monitor at the
origin whose work area is the full screen. -/
def envOneMonitor : Monitors :=
  ⟨[{ posx := 0, posy := 0, workarea := ⟨0, 0, 1920, 1080⟩,
      vmode := ⟨1920, 1080, 60⟩ }]⟩

/-- A display state with current mode Windowed, target Windowed on screen 0
but target screen 1 requested, and the recorded video mode equal to the
monitor's current one. -/
def stateScreenChange : DisplayState :=
  { fullscreen_target_mode := GraphicsDisplayMode.Windowed
    fullscreen_mode := some GraphicsDisplayMode.Windowed
    last_fullscreen_mode := some GraphicsDisplayMode.Windowed
    fullscreen_screen := 0
    fullscreen_target_screen := 1
    last_windowed_xpos := 0
    last_windowed_ypos := 0
    last_windowed_width := 640
    last_windowed_height := 480
    last_video_mode := ⟨1920, 1080, 60⟩
    minimized := false
    window_geometry := ⟨0, 0, 640, 480⟩ }

/-- Componentwise equality of video modes. -/
theorem VideoMode.eq_iff (v l : VideoMode) :
    v = l ↔ (v.width = l.width ∧ v.height = l.height ∧
      v.refreshRate = l.refreshRate) := by
  cases v
  cases l
  simp

/-- Counterexample for C7: with currentMode equal to targetMode and the
monitor's video mode unchanged since the last flush, but a different target
screen requested, OpenGLDisplay::fullscreen_pending returns true while the
claim's predicate returns false. -/
theorem fullscreen_pending_claim_cex :
    OpenGLDisplay.fullscreen_pending envOneMonitor stateScreenChange = true ∧
      fullscreen_pending_claimC7 envOneMonitor stateScreenChange = false := by
  constructor
  · decide
  · decide

/-- Claim C7 as amended: fullscreen_pending returns true exactly when the
current mode differs from the target mode, or the current screen differs
from the target screen, or the monitor's observed video mode differs from
the one recorded at the last flush (the video-mode comparison is performed
in every mode, not only fullscreen-like ones). -/
theorem fullscreen_pending_iff (env : Monitors) (s : DisplayState) :
    OpenGLDisplay.fullscreen_pending env s = true ↔
      (s.fullscreen_mode ≠ some s.fullscreen_target_mode ∨
        s.fullscreen_screen ≠ s.fullscreen_target_screen ∨
        (get_monitor env s.fullscreen_screen).vmode ≠ s.last_video_mode) := by
  simp only [OpenGLDisplay.fullscreen_pending,
    GraphicsDisplay.fullscreen_pending_base, Bool.or_eq_true,
    decide_eq_true_eq, ne_eq, VideoMode.eq_iff]
  tauto

/-- The starting state of the C8 scenario: an established Windowed display
at geometry (x0, y0, w0, h0) with no pending request. -/
def roundTripStart (x0 y0 w0 h0 : Int) : DisplayState :=
  { fullscreen_target_mode := GraphicsDisplayMode.Windowed
    fullscreen_mode := some GraphicsDisplayMode.Windowed
    last_fullscreen_mode := some GraphicsDisplayMode.Windowed
    fullscreen_screen := 0
    fullscreen_target_screen := 0
    last_windowed_xpos := x0
    last_windowed_ypos := y0
    last_windowed_width := w0
    last_windowed_height := h0
    last_video_mode := ⟨0, 0, 0⟩
    minimized := false
    window_geometry := ⟨x0, y0, w0, h0⟩ }

/-- The C8 scenario: request Fullscreen on screen scr and run one
presentation-loop mode step (which flushes), then request Windowed and run
another mode step. -/
def roundTrip (env : Monitors) (x0 y0 w0 h0 scr : Int) : DisplayState :=
  display_mode_step env (set_fullscreen (display_mode_step env
    (set_fullscreen (roundTripStart x0 y0 w0 h0)
      GraphicsDisplayMode.Fullscreen scr))
    GraphicsDisplayMode.Windowed scr)

/-- Counterexample for C8: starting Windowed at (0, 0, 640, 480) on a
1920x1080 monitor, the fullscreen round trip ends at the work-area-centered
geometry (640, 300, 640, 480), not at the original (0, 0, 640, 480). -/
theorem fullscreen_round_trip_cex :
    (roundTripStart 0 0 640 480).window_geometry = ⟨0, 0, 640, 480⟩ ∧
      (roundTrip envOneMonitor 0 0 640 480 0).window_geometry =
        ⟨640, 300, 640, 480⟩ ∧
      (roundTrip envOneMonitor 0 0 640 480 0).window_geometry ≠
        ⟨0, 0, 640, 480⟩ := by
  refine ⟨rfl, by decide, by decide⟩

/-- Claim C8 as amended: the fullscreen round trip restores the windowed
size (w0, h0) exactly, but recenters the window on the work area of the
monitor that was fullscreened instead of restoring (x0, y0): the final
geometry is the centered one, with C++ int division (Int.tdiv). -/
theorem fullscreen_round_trip_recenters (env : Monitors)
    (x0 y0 w0 h0 scr : Int) :
    (roundTrip env x0 y0 w0 h0 scr).window_geometry =
      ⟨(get_monitor env scr).workarea.x +
          Int.tdiv (get_monitor env scr).workarea.width 2 - Int.tdiv w0 2,
        (get_monitor env scr).workarea.y +
          Int.tdiv (get_monitor env scr).workarea.height 2 - Int.tdiv h0 2,
        w0, h0⟩ ∧
      (roundTrip env x0 y0 w0 h0 scr).last_windowed_width = w0 ∧
      (roundTrip env x0 y0 w0 h0 scr).last_windowed_height = h0 ∧
      (roundTrip env x0 y0 w0 h0 scr).fullscreen_mode =
        some GraphicsDisplayMode.Windowed := by
  simp [roundTrip, roundTripStart, set_fullscreen, display_mode_step,
    OpenGLDisplay.fullscreen_flush, GraphicsDisplay.fullscreen_flush,
    update_fullscreen, OpenGLDisplay.fullscreen_pending,
    GraphicsDisplay.fullscreen_pending_base]

/-!
Graphics queries (Graphics.cpp:330-367, 435-444) and the main-display lookup
(Display.cpp:73-77). Peripherals::CONTROLLER_COUNT = 2 (Peripherals.h:20)
and Button::Max = 16 (Peripherals.h:53) bound the mapping arrays
ControllerButtonMapping[CONTROLLER_COUNT][Button::Max] and
KeyboardButtonMapping[CONTROLLER_COUNT][Button::Max] (Peripherals.h:79-82).
-/

/-- Peripherals::CONTROLLER_COUNT (Peripherals.h:20). -/
def CONTROLLER_COUNT : Int := 2

/-- Button::Max (Peripherals.h:53), the row length of the button-mapping
arrays. -/
def buttonMax : Int := 16

/-- The parameter validity check of Graphics::get_mapped_button
(Graphics.cpp:436): the function returns -1 (after logging) exactly when
this is false, and otherwise indexes both mapping arrays at [pad][button]. -/
def get_mapped_button_check (pad button : Int) : Bool :=
  !(decide (pad < 0) || decide (pad > CONTROLLER_COUNT) ||
    decide (button < 0) || decide (button > 16))

/-- The indices (pad, button) address ControllerButtonMapping and
KeyboardButtonMapping in bounds. -/
def mapping_index_in_bounds (pad button : Int) : Prop :=
  0 ≤ pad ∧ pad < CONTROLLER_COUNT ∧ 0 ≤ button ∧ button < buttonMax

instance (pad button : Int) : Decidable (mapping_index_in_bounds pad button) := by
  unfold mapping_index_in_bounds
  infer_instance

/-- Claim C9 (code bug): the validity check of get_mapped_button accepts
pad = 2 and button = 16, which are out of bounds for the
[CONTROLLER_COUNT][Button::Max] = [2][16] mapping arrays — the guard uses
"pad > CONTROLLER_COUNT" and "button > 16" where ">=" was intended, so the
subsequent array reads are not within bounds for these inputs. -/
theorem get_mapped_button_check_not_bounding :
    get_mapped_button_check 2 0 = true ∧
      ¬mapping_index_in_bounds 2 0 ∧
      get_mapped_button_check 0 16 = true ∧
      ¬mapping_index_in_bounds 0 16 := by
  refine ⟨by decide, by decide, by decide, by decide⟩

/-- One display as the Graphics queries observe it: whether the window
pointer is non-null (is_active), the framebuffer size reported by
get_size/width/height, and the current fullscreen mode (none models the
invalid initial value (GraphicsDisplayMode)-1). -/
structure GDisplay where
  is_active : Bool
  width : Int
  height : Int
  fullscreen_mode : Option GraphicsDisplayMode
deriving DecidableEq, Repr

/-- Display::GetMainDisplay (Display.cpp:73-77): null when the display list
is empty; otherwise the front display if it is active, else null. -/
def GetMainDisplay (displays : List GDisplay) : Option GDisplay :=
  match displays with
  | [] => none
  | d :: _ => if d.is_active then some d else none

/-- Graphics::get_window_width (Graphics.cpp:330-337): the main display's
width, or 0 when there is no main display. A pure query: no state is
modified. -/
def get_window_width (displays : List GDisplay) : Int :=
  match GetMainDisplay displays with
  | some d => d.width
  | none => 0

/-- Graphics::get_window_height (Graphics.cpp:339-346): the main display's
height, or 0 when there is no main display. A pure query: no state is
modified. -/
def get_window_height (displays : List GDisplay) : Int :=
  match GetMainDisplay displays with
  | some d => d.height
  | none => 0

/-- Graphics::get_fullscreen (Graphics.cpp:360-367): the main display's
current fullscreen mode, or Windowed when there is no main display. A pure
query: no state is modified. -/
def get_fullscreen (displays : List GDisplay) : Option GraphicsDisplayMode :=
  match GetMainDisplay displays with
  | some d => d.fullscreen_mode
  | none => some GraphicsDisplayMode.Windowed

/-- Claim C10: when GetMainDisplay yields null, the Graphics queries return
their safe defaults: get_window_width and get_window_height return 0 and
get_fullscreen returns Windowed (and, being pure queries, they modify no
state). -/
theorem graphics_defaults_without_display (displays : List GDisplay)
    (h : GetMainDisplay displays = none) :
    get_window_width displays = 0 ∧
      get_window_height displays = 0 ∧
      get_fullscreen displays = some GraphicsDisplayMode.Windowed := by
  unfold get_window_width get_window_height get_fullscreen
  rw [h]
  exact ⟨rfl, rfl, rfl⟩

/-- Witness for C10 at the empty display list (before InitMainDisplay or
after KillMainDisplay). -/
theorem graphics_defaults_without_display_witness :
    GetMainDisplay [] = none ∧
      (get_window_width [] = 0 ∧
        get_window_height [] = 0 ∧
        get_fullscreen [] = some GraphicsDisplayMode.Windowed) :=
  ⟨rfl, graphics_defaults_without_display [] rfl⟩
